import Mathlib

/-!
Shallow embedding of the choropleth map-generation pipeline of
`demo_graph.py` (a Streamlit/folium app): metric-label extraction,
colormap (color-scale) construction, per-feature styling, detail-panel
HTML assembly, and the map-assembly loop.

Conventions of the embedding:
* pandas numeric cells are `Option ℚ`: `none` models a missing value
  (Python `None` or float `NaN`, both of which satisfy `pd.isna`),
  `some q` a present numeric value.  The float `NaN` comparison
  semantics of `min_val == max_val` is modelled by `nanEq`, which is
  `false` whenever either side is missing, exactly as `nan == nan` is
  `False` in Python.
* base64 chart-image cells are `Option Payload`: `none` models Python
  `None` (the only value the source's `is None` test detects), and
  `Payload` distinguishes a string payload from a pandas `NaN`
  placeholder, which Python string interpolation renders as `"nan"`.
* geometries are opaque: all the source does with one is test it
  against `None` and take its `__geo_interface__`.
* branca's `cm.linear.OrRd_09.scale(a, b)` colormap object is the
  `Colormap` structure, and calling it on a value is `colormap_color`,
  kept abstract as an injective constructor (branca is an external
  library; the pipeline only ever passes the call through).
-/

set_option autoImplicit false
set_option maxRecDepth 16384

namespace DemoGraph

/-- Opaque polygon geometry; `ifc` stands for the `__geo_interface__`
dict the source extracts from it. -/
structure Geometry where
  ifc : String
deriving DecidableEq, Repr

/-- Content of a chart-image cell that is not Python `None`: either an
actual base64 string or a pandas `NaN` placeholder (which `is None`
does NOT detect and which an f-string renders as `"nan"`). -/
inductive Payload where
  | base64 : String → Payload
  | nanCell : Payload
deriving DecidableEq, Repr

/-- How Python string interpolation renders a non-`None` image cell. -/
def payload_text : Payload → String
  | Payload.base64 s => s
  | Payload.nanCell => "nan"

/-- One row of the merged GeoDataFrame: the `NAME` column, the
`geometry` column (nullable), the numeric demographic metric columns,
and the two base64 bar-chart columns (nullable). -/
structure Region where
  name : String
  geometry : Option Geometry
  metrics : List (String × Option ℚ)
  femaleBarChart : Option Payload
  maleBarChart : Option Payload
deriving DecidableEq, Repr

/-- The loaded GeoDataFrame: its column schema plus its rows. -/
structure Dataset where
  columns : List String
  rows : List Region
deriving DecidableEq, Repr

/-- Reading a metric cell of a row: a missing column key and a stored
`NaN` both read as missing (`pd.isna` is true for both `None` and
`NaN`). -/
def cell_value (row : Region) (var : String) : Option ℚ :=
  match row.metrics.lookup var with
  | some v => v
  | none => none

/-- The column `gdf[variable]` as a list of nullable cells. -/
def column_cells (gdf : Dataset) (var : String) : List (Option ℚ) :=
  gdf.rows.map (fun r => cell_value r var)

/-- pandas `Series.min`: the minimum of the present values, `NaN`
(here `none`) when no value is present. -/
def pandas_min (cells : List (Option ℚ)) : Option ℚ :=
  match cells.filterMap id with
  | [] => none
  | x :: xs => some (xs.foldl min x)

/-- pandas `Series.max`: the maximum of the present values, `NaN`
(here `none`) when no value is present. -/
def pandas_max (cells : List (Option ℚ)) : Option ℚ :=
  match cells.filterMap id with
  | [] => none
  | x :: xs => some (xs.foldl max x)

/-- Python float equality `min_val == max_val` on possibly-`NaN`
values: `NaN` compares unequal to everything, itself included. -/
def nanEq : Option ℚ → Option ℚ → Bool
  | some a, some b => a == b
  | _, _ => false

/-- Python `str.split(sep, maxsplit)` on an explicit character list:
`fuel` is the number of splits still allowed, `acc` the reversed
current segment. -/
def pySplitAux (sep : Char) : Nat → List Char → List Char → List String
  | _, acc, [] => [String.mk acc.reverse]
  | fuel, acc, c :: cs =>
    if c = sep then
      match fuel with
      | 0 => [String.mk (acc.reverse ++ c :: cs)]
      | m + 1 => String.mk acc.reverse :: pySplitAux sep m [] cs
    else
      pySplitAux sep fuel (c :: acc) cs

/-- Python `s.split(sep, maxsplit)`. -/
def py_split (s : String) (sep : Char) (maxsplit : Nat) : List String :=
  pySplitAux sep maxsplit [] s.data

/-- Python `str.strip()`: drop leading and trailing whitespace. -/
def py_strip (s : String) : String :=
  String.mk (((s.data.dropWhile Char.isWhitespace).reverse.dropWhile Char.isWhitespace).reverse)

/-- Label derivation inlined in `extract_variable_labels`:
`parts = col.split('_', 2)`, the third part stripped when there are
exactly three parts, the whole column name otherwise. -/
def variable_label (col : String) : String :=
  match py_split col '_' 2 with
  | [_, _, label] => py_strip label
  | _ => col

/-- `extract_variable_labels`: the code→label mapping over the columns
that start with `P12_`. -/
def extract_variable_labels (columns : List String) : List (String × String) :=
  columns.filterMap
    (fun col =>
      if col.startsWith "P12_" then some (col, variable_label col) else none)

/-- The branca colormap object built by `create_colormap`: the `OrRd_09`
ramp scaled to a `(min_val, max_val)` domain (either end `none` when the
column had no present value, modelling a `NaN` domain bound), plus the
caption set on it. -/
structure Colormap where
  minVal : Option ℚ
  maxVal : Option ℚ
  ramp : String
  caption : String
deriving DecidableEq, Repr

/-- `create_colormap`: takes the column minimum and maximum (pandas
semantics, missing cells ignored), widens a degenerate `min == max`
domain by one on each side, scales the `OrRd_09` ramp to it and sets
the caption from the label map with the raw code as fallback. -/
def create_colormap (gdf : Dataset) (var : String)
    (variable_labels : List (String × String)) : Colormap :=
  let min_val := pandas_min (column_cells gdf var)
  let max_val := pandas_max (column_cells gdf var)
  let bounds :=
    if nanEq min_val max_val then
      (min_val.map (fun q => q - 1), max_val.map (fun q => q + 1))
    else
      (min_val, max_val)
  { minVal := bounds.1
    maxVal := bounds.2
    ramp := "OrRd_09"
    caption :=
      "Demographic Metric: " ++ ((variable_labels.lookup var).getD var) }

/-- Colors as the pipeline distinguishes them: the literal CSS names it
hardcodes, and the result of calling the branca colormap on a value,
kept abstract (the interpolation lives in the external branca library
and the pipeline never inspects the returned hex string). -/
inductive Color where
  | grey
  | black
  | blue
  | rampAt : Option ℚ → Option ℚ → String → ℚ → Color
deriving DecidableEq, Repr

/-- Calling the branca colormap object on a numeric value:
`colormap(val)` interpolates `val` against the ramp over the domain.
Modelled as the abstract interpolation point. -/
def colormap_color (colormap : Colormap) (val : ℚ) : Color :=
  Color.rampAt colormap.minVal colormap.maxVal colormap.ramp val

/-- The style dict returned by `style_function`. -/
structure Style where
  fillColor : Color
  color : Color
  weight : ℚ
  fillOpacity : ℚ
deriving DecidableEq, Repr

/-- The GeoJSON feature dict the loop builds per row: `type`,
`properties` (all columns except `geometry` and the two bar-chart
columns, i.e. `NAME` plus the metric columns) and the geometry's
`__geo_interface__`. -/
structure Feature where
  featureType : String
  name : String
  metrics : List (String × Option ℚ)
  geometry : String
deriving DecidableEq, Repr

/-- The lookup `feature['properties'].get(variable, None)` followed by
the `pd.isna` test: an absent key and a stored `NaN` both count as
missing. -/
def prop_get (feature : Feature) (var : String) : Option ℚ :=
  match feature.metrics.lookup var with
  | some v => v
  | none => none

/-- `style_function`: grey fill for a missing/`NaN` value, colormap
fill otherwise; always a black border of weight `0.5` and fill opacity
`0.7`. -/
def style_function (colormap : Colormap) (var : String) (feature : Feature) : Style :=
  match prop_get feature var with
  | none =>
    { fillColor := Color.grey, color := Color.black, weight := 1/2, fillOpacity := 7/10 }
  | some val =>
    { fillColor := colormap_color colormap val, color := Color.black,
      weight := 1/2, fillOpacity := 7/10 }

/-- Opening of both popup panels, up to the district name. -/
def panel_head : String :=
  "\n            <div style=\"width: 300px;\">\n                <h4>"

/-- Remainder of the no-data panel after the district name. -/
def panel_no_data_tail : String :=
  "</h4>\n                <p>No data available for bar charts.</p>\n            </div>\n            "

/-- Part of the two-chart panel between the district name and the
female image payload. -/
def panel_mid1 : String :=
  "</h4>\n                <div style=\"display: flex; flex-direction: column; gap: 10px;\">\n                    <div>\n                        <h5>Female Age Data</h5>\n                        <img src=\"data:image/png;base64,"

/-- Part of the two-chart panel between the female and male image
payloads. -/
def panel_mid2 : String :=
  "\" style=\"width: 280px; height: 150px;\">\n                    </div>\n                    <div>\n                        <h5>Male Age Data</h5>\n                        <img src=\"data:image/png;base64,"

/-- Closing of the two-chart panel after the male image payload. -/
def panel_tail : String :=
  "\" style=\"width: 280px; height: 150px;\">\n                    </div>\n                </div>\n            </div>\n            "

/-- `create_html_content`: the no-data panel when either bar-chart cell
is Python `None`, the two-chart panel otherwise (with the payloads
rendered by string interpolation). -/
def create_html_content (row : Region) : String :=
  match row.femaleBarChart, row.maleBarChart with
  | some female_img, some male_img =>
    panel_head ++ row.name ++ panel_mid1 ++ payload_text female_img ++
      panel_mid2 ++ payload_text male_img ++ panel_tail
  | _, _ =>
    panel_head ++ row.name ++ panel_no_data_tail

/-- The fixed hover-emphasis style of `highlight_function`. -/
structure HighlightStyle where
  weight : ℚ
  color : Color
deriving DecidableEq, Repr

/-- The popup: an iframe of fixed size holding the panel HTML. -/
structure Popup where
  html : String
  width : Nat
  height : Nat
  maxWidth : Nat
deriving DecidableEq, Repr

/-- One `folium.GeoJson` layer added to the map: the feature dict, the
style computed for it, the highlight style, the tooltip and the popup. -/
structure GeoJsonLayer where
  feature : Feature
  style : Style
  highlight : HighlightStyle
  tooltip : String
  popup : Popup
deriving DecidableEq, Repr

/-- The composed folium map: base view, legend colormap, the GeoJson
layers in insertion order, and the layer control. -/
structure MapArtifact where
  location : ℚ × ℚ
  zoomStart : Nat
  colormap : Colormap
  layers : List GeoJsonLayer
  layerControl : Bool
deriving DecidableEq, Repr

/-- The body of one loop iteration of `generate_map` for a row whose
geometry is present: build the feature from the row (properties are
the row minus geometry and the two bar-chart columns), style it, and
attach highlight, tooltip and popup. -/
def mkLayer (colormap : Colormap) (var : String) (row : Region) (g : Geometry) : GeoJsonLayer :=
  let feature : Feature :=
    { featureType := "Feature", name := row.name, metrics := row.metrics, geometry := g.ifc }
  { feature := feature
    style := style_function colormap var feature
    highlight := { weight := 3, color := Color.blue }
    tooltip := row.name
    popup := { html := create_html_content row, width := 320, height := 400, maxWidth := 320 } }

/-- `generate_map`: build the colormap, then iterate the rows in order,
skipping rows whose geometry is `None` and appending one GeoJson layer
for every other row; finally attach the layer control. -/
def generate_map (gdf : Dataset) (var : String)
    (variable_labels : List (String × String)) : MapArtifact :=
  let colormap := create_colormap gdf var variable_labels
  { location := ((37.8 : ℚ), (-96 : ℚ))
    zoomStart := 4
    colormap := colormap
    layers :=
      gdf.rows.filterMap (fun row => row.geometry.map (fun g => mkLayer colormap var row g))
    layerControl := true }

/-- The `generate_map` loop with the row list threaded through as
state: each iteration reads its row and passes it along untouched,
exactly as the source only ever reads from `row`.  Returns the layers
built and the row list as it stands after the loop. -/
def assemble_rows (colormap : Colormap) (var : String) :
    List Region → List GeoJsonLayer × List Region
  | [] => ([], [])
  | row :: rest =>
    let head := row.geometry.map (fun g => mkLayer colormap var row g)
    let tail := assemble_rows colormap var rest
    (match head with
     | none => tail.1
     | some l => l :: tail.1,
     row :: tail.2)

/-- The map-producing part of `main`: extract the labels, reject the
preset variable if it is not a column (the `st.error`/`st.stop` path,
taken before `generate_map` and hence before any colormap is built),
otherwise generate the map. -/
def main_flow (gdf : Dataset) (presetVar : String) : Except String MapArtifact :=
  let variable_labels := extract_variable_labels gdf.columns
  if gdf.columns.contains presetVar then
    Except.ok (generate_map gdf presetVar variable_labels)
  else
    Except.error ("Preset variable " ++ presetVar ++ " not found in the data.")

/-- Specification-side color domain, following the spec's words: the
minimum and maximum of the PRESENT values only, widened by one on each
side when they coincide.  Compared against `create_colormap` to show
missing cells are excluded from domain computation. -/
def spec_domain_of_present (values : List ℚ) : Option ℚ × Option ℚ :=
  match values with
  | [] => (none, none)
  | x :: xs =>
    let mn := xs.foldl min x
    let mx := xs.foldl max x
    if mn = mx then (some (mn - 1), some (mx + 1)) else (some mn, some mx)

/-- Substring containment, stated over the underlying character
lists. -/
def contains_str (s sub : String) : Prop :=
  ∃ a b : List Char, s.data = a ++ sub.data ++ b

/-- Concrete row fixture: value 42 for `P12_001N`, no geometry. -/
def region_fortytwo_A : Region :=
  { name := "A", geometry := none, metrics := [("P12_001N", some 42)],
    femaleBarChart := none, maleBarChart := none }

/-- Concrete row fixture: a second row with the same value 42. -/
def region_fortytwo_B : Region :=
  { name := "B", geometry := none, metrics := [("P12_001N", some 42)],
    femaleBarChart := none, maleBarChart := none }

/-- Concrete dataset fixture whose only metric column is constant. -/
def gdf_constant : Dataset :=
  { columns := ["NAME", "P12_001N"], rows := [region_fortytwo_A, region_fortytwo_B] }

/-- Concrete geometry fixture. -/
def geom_A : Geometry := { ifc := "geoA" }

/-- Concrete geometry fixture. -/
def geom_B : Geometry := { ifc := "geoB" }

/-- Concrete row fixture: value 10, geometry and both charts present. -/
def region_ten : Region :=
  { name := "A", geometry := some geom_A, metrics := [("P12_001N", some 10)],
    femaleBarChart := some (Payload.base64 "IMGF"),
    maleBarChart := some (Payload.base64 "IMGM") }

/-- Concrete row fixture: missing metric value, geometry present,
female chart missing. -/
def region_missing_val : Region :=
  { name := "B", geometry := some geom_B, metrics := [("P12_001N", none)],
    femaleBarChart := none, maleBarChart := some (Payload.base64 "IMGB") }

/-- Concrete row fixture: value 30, no geometry, male chart missing. -/
def region_thirty : Region :=
  { name := "C", geometry := none, metrics := [("P12_001N", some 30)],
    femaleBarChart := some (Payload.base64 "IMGC"), maleBarChart := none }

/-- Concrete dataset fixture with a missing metric value and a missing
geometry among its rows. -/
def gdf_mixed : Dataset :=
  { columns := ["NAME", "P12_001N"],
    rows := [region_ten, region_missing_val, region_thirty] }

/-- Concrete colormap fixture. -/
def colormap_fixture : Colormap :=
  { minVal := some 0, maxVal := some 100, ramp := "OrRd_09",
    caption := "Demographic Metric: x" }

/-- Concrete feature fixture with a missing metric value. -/
def feature_missing : Feature :=
  { featureType := "Feature", name := "B", metrics := [("P12_001N", none)],
    geometry := "geoB" }

/-- Concrete feature fixture with metric value 5. -/
def feature_present : Feature :=
  { featureType := "Feature", name := "A", metrics := [("P12_001N", some 5)],
    geometry := "geoA" }

/-- The first layer `generate_map` builds over `gdf_mixed`. -/
def layer_ten : GeoJsonLayer :=
  mkLayer (create_colormap gdf_mixed "P12_001N" []) "P12_001N" region_ten geom_A

/-- Concrete row fixture with an empty-string female payload and a
pandas-`NaN` male payload, both of which are not Python `None`. -/
def region_odd_payloads : Region :=
  { name := "D", geometry := some (Geometry.mk "geoD"),
    metrics := [("P12_001N", some 7)],
    femaleBarChart := some (Payload.base64 ""),
    maleBarChart := some Payload.nanCell }

theorem string_data_append (s t : String) : (s ++ t).data = s.data ++ t.data := by
  cases s
  cases t
  rfl

theorem pySplitAux_no_sep (sep : Char) (p : List Char) (hp : sep ∉ p) (fuel : Nat) :
    ∀ acc : List Char, pySplitAux sep fuel acc p = [String.mk (acc.reverse ++ p)] := by
  induction p with
  | nil => intro acc; simp [pySplitAux]
  | cons c cs ih =>
    intro acc
    simp only [List.mem_cons, not_or] at hp
    have hc : ¬ c = sep := fun h => hp.1 h.symm
    simp [pySplitAux, hc, ih hp.2]

theorem pySplitAux_zero (sep : Char) (p : List Char) :
    ∀ acc : List Char, pySplitAux sep 0 acc p = [String.mk (acc.reverse ++ p)] := by
  induction p with
  | nil => intro acc; simp [pySplitAux]
  | cons c cs ih =>
    intro acc
    by_cases hc : c = sep
    · subst hc; simp [pySplitAux]
    · simp [pySplitAux, hc, ih]

theorem pySplitAux_sep_step (sep : Char) (p : List Char) (hp : sep ∉ p) (m : Nat)
    (rest : List Char) :
    ∀ acc : List Char,
      pySplitAux sep (m + 1) acc (p ++ sep :: rest)
        = String.mk (acc.reverse ++ p) :: pySplitAux sep m [] rest := by
  induction p with
  | nil => intro acc; simp [pySplitAux]
  | cons c cs ih =>
    intro acc
    simp only [List.mem_cons, not_or] at hp
    have hc : ¬ c = sep := fun h => hp.1 h.symm
    simp [pySplitAux, hc, ih hp.2]

theorem py_split_three (p q : List Char) (r : String) (hp : '_' ∉ p) (hq : '_' ∉ q) :
    py_split (String.mk (p ++ '_' :: (q ++ '_' :: r.data))) '_' 2
      = [String.mk p, String.mk q, r] := by
  show pySplitAux '_' 2 [] (p ++ '_' :: (q ++ '_' :: r.data))
      = [String.mk p, String.mk q, r]
  rw [pySplitAux_sep_step '_' p hp 1 _ []]
  rw [pySplitAux_sep_step '_' q hq 0 _ []]
  rw [pySplitAux_zero]
  rfl

theorem py_split_two (p q : List Char) (hp : '_' ∉ p) (hq : '_' ∉ q) :
    py_split (String.mk (p ++ '_' :: q)) '_' 2 = [String.mk p, String.mk q] := by
  show pySplitAux '_' 2 [] (p ++ '_' :: q) = [String.mk p, String.mk q]
  rw [pySplitAux_sep_step '_' p hp 1 _ []]
  rw [pySplitAux_no_sep '_' q hq 1]
  rfl

theorem py_split_one (p : List Char) (hp : '_' ∉ p) :
    py_split (String.mk p) '_' 2 = [String.mk p] := by
  show pySplitAux '_' 2 [] p = [String.mk p]
  rw [pySplitAux_no_sep '_' p hp 2]
  rfl

theorem filterMap_geom (f : Region → Geometry → GeoJsonLayer) (dflt : Geometry)
    (rows : List Region) :
    rows.filterMap (fun r => r.geometry.map (f r))
      = (rows.filter (fun r => r.geometry.isSome)).map
          (fun r => f r (r.geometry.getD dflt)) := by
  induction rows with
  | nil => rfl
  | cons r rs ih => cases h : r.geometry <;> simp [h, ih]

theorem assemble_rows_snd (colormap : Colormap) (var : String) (rows : List Region) :
    (assemble_rows colormap var rows).2 = rows := by
  induction rows with
  | nil => rfl
  | cons r rs ih => simp [assemble_rows, ih]

theorem assemble_rows_fst (colormap : Colormap) (var : String) (rows : List Region) :
    (assemble_rows colormap var rows).1
      = rows.filterMap (fun row => row.geometry.map (fun g => mkLayer colormap var row g)) := by
  induction rows with
  | nil => rfl
  | cons r rs ih => cases h : r.geometry <;> simp [assemble_rows, h, ih]

/-- C7: for every metric column name, the derived display label equals
the third underscore-delimited segment (splitting at most twice) with
surrounding whitespace trimmed when the name splits into three
segments, and equals the full column name when fewer than three
segments are present; `extract_variable_labels` records exactly this
label for every `P12_`-prefixed column. -/
theorem variable_label_correct :
    (∀ (p q : List Char) (r : String), '_' ∉ p → '_' ∉ q →
        variable_label (String.mk (p ++ '_' :: (q ++ '_' :: r.data))) = py_strip r)
    ∧ (∀ p q : List Char, '_' ∉ p → '_' ∉ q →
        variable_label (String.mk (p ++ '_' :: q)) = String.mk (p ++ '_' :: q))
    ∧ (∀ p : List Char, '_' ∉ p → variable_label (String.mk p) = String.mk p)
    ∧ (∀ (columns : List String) (col : String), col ∈ columns →
        col.startsWith "P12_" = true →
        (col, variable_label col) ∈ extract_variable_labels columns) := by
  refine ⟨?_, ?_, ?_, ?_⟩
  · intro p q r hp hq
    unfold variable_label
    rw [py_split_three p q r hp hq]
  · intro p q hp hq
    unfold variable_label
    rw [py_split_two p q hp hq]
  · intro p hp
    unfold variable_label
    rw [py_split_one p hp]
  · intro columns col hmem hpre
    unfold extract_variable_labels
    rw [List.mem_filterMap]
    exact ⟨col, hmem, by simp [hpre]⟩

/-- Witness for C7: a three-segment column name yields its trimmed
third segment, a two-segment one falls back to the full name. -/
theorem variable_label_correct_witness :
    variable_label "P12_027N_ Total Population " = "Total Population"
    ∧ variable_label "P12_027N" = "P12_027N" := by
  constructor
  · have h := variable_label_correct.1 ['P', '1', '2'] ['0', '2', '7', 'N']
      " Total Population " (by decide) (by decide)
    have e : String.mk (['P', '1', '2'] ++ '_' ::
        (['0', '2', '7', 'N'] ++ '_' :: (" Total Population ").data))
        = "P12_027N_ Total Population " := by decide
    rw [e] at h
    rw [h]
    decide
  · have h := variable_label_correct.2.1 ['P', '1', '2'] ['0', '2', '7', 'N']
      (by decide) (by decide)
    have e : String.mk (['P', '1', '2'] ++ '_' :: ['0', '2', '7', 'N'])
        = "P12_027N" := by decide
    rw [e] at h
    exact h

/-- C2: when the column minimum equals the column maximum the colormap
domain is widened to `(min - 1, max + 1)`; when the minimum is strictly
below the maximum the domain is exactly `(min, max)`. -/
theorem create_colormap_domain (gdf : Dataset) (var : String)
    (variable_labels : List (String × String)) (mn mx : ℚ)
    (hmin : pandas_min (column_cells gdf var) = some mn)
    (hmax : pandas_max (column_cells gdf var) = some mx) :
    (mn = mx →
      (create_colormap gdf var variable_labels).minVal = some (mn - 1)
      ∧ (create_colormap gdf var variable_labels).maxVal = some (mx + 1))
    ∧ (mn < mx →
      (create_colormap gdf var variable_labels).minVal = some mn
      ∧ (create_colormap gdf var variable_labels).maxVal = some mx) := by
  constructor
  · intro h
    subst h
    simp [create_colormap, hmin, hmax, nanEq]
  · intro h
    have hne : (mn == mx) = false := beq_eq_false_iff_ne.mpr (ne_of_lt h)
    simp [create_colormap, hmin, hmax, nanEq, hne]

/-- Witness for C2: a column whose every value is 42 yields the domain
`(41, 43)`. -/
theorem create_colormap_domain_witness :
    (create_colormap gdf_constant "P12_001N" []).minVal = some 41
    ∧ (create_colormap gdf_constant "P12_001N" []).maxVal = some 43 := by
  have h := (create_colormap_domain gdf_constant "P12_001N" [] 42 42
    (by decide) (by decide)).1 rfl
  constructor
  · rw [h.1]
    norm_num
  · rw [h.2]
    norm_num

/-- C6: the colormap domain is a function of the present column values
only — missing cells are excluded, not treated as zero; in particular
the fixture column `{10, missing, 30}` yields the domain `(10, 30)`. -/
theorem create_colormap_ignores_missing (gdf : Dataset) (var : String)
    (variable_labels : List (String × String)) :
    ((create_colormap gdf var variable_labels).minVal,
        (create_colormap gdf var variable_labels).maxVal)
      = spec_domain_of_present ((column_cells gdf var).filterMap id)
    ∧ (create_colormap gdf_mixed "P12_001N" []).minVal = some 10
    ∧ (create_colormap gdf_mixed "P12_001N" []).maxVal = some 30 := by
  refine ⟨?_, by decide, by decide⟩
  unfold create_colormap spec_domain_of_present pandas_min pandas_max
  cases h : (column_cells gdf var).filterMap id with
  | nil => simp [h, nanEq]
  | cons x xs =>
    by_cases he : xs.foldl min x = xs.foldl max x
    · simp [h, nanEq, he]
    · have hne : (xs.foldl min x == xs.foldl max x) = false :=
        beq_eq_false_iff_ne.mpr he
      simp [h, nanEq, hne, he]

/-- C5: when the requested metric code is not among the dataset's
columns, the pipeline stops with the metric-not-found error — before
`generate_map`, and hence before any colormap construction — and
produces no map artifact. -/
theorem main_flow_rejects_unknown_metric (gdf : Dataset) (presetVar : String)
    (h : presetVar ∉ gdf.columns) :
    main_flow gdf presetVar
      = Except.error ("Preset variable " ++ presetVar ++ " not found in the data.")
    ∧ contains_str ("Preset variable " ++ presetVar ++ " not found in the data.")
        "not found"
    ∧ ∀ m : MapArtifact, main_flow gdf presetVar ≠ Except.ok m := by
  have hc : gdf.columns.contains presetVar = false := by
    cases hcb : gdf.columns.contains presetVar with
    | false => rfl
    | true => exact absurd (List.elem_iff.mp hcb) h
  have herr : main_flow gdf presetVar
      = Except.error ("Preset variable " ++ presetVar ++ " not found in the data.") := by
    unfold main_flow
    simp [hc, h]
  refine ⟨herr, ?_, ?_⟩
  · exact ⟨"Preset variable ".data ++ presetVar.data ++ " ".data, " in the data.".data,
      by simp [string_data_append]⟩
  · intro m
    rw [herr]
    exact fun hcontra => Except.noConfusion hcontra

/-- Witness for C5 at a concrete dataset and an absent metric code. -/
theorem main_flow_rejects_unknown_metric_witness :
    main_flow gdf_mixed "P12_999X"
      = Except.error ("Preset variable " ++ "P12_999X" ++ " not found in the data.") :=
  (main_flow_rejects_unknown_metric gdf_mixed "P12_999X" (by decide)).1

/-- C3: for every colormap, the per-feature style has the grey fill
with black border of weight 0.5 and fill opacity 0.7 when the metric
value is missing or NaN, and otherwise the same border attributes with
the colormap color of the value as fill. -/
theorem style_function_correct (colormap : Colormap) (var : String)
    (feature : Feature) :
    (prop_get feature var = none →
      style_function colormap var feature
        = { fillColor := Color.grey, color := Color.black,
            weight := 1/2, fillOpacity := 7/10 })
    ∧ ∀ v : ℚ, prop_get feature var = some v →
      style_function colormap var feature
        = { fillColor := colormap_color colormap v, color := Color.black,
            weight := 1/2, fillOpacity := 7/10 } := by
  constructor
  · intro h
    unfold style_function
    rw [h]
  · intro v h
    unfold style_function
    rw [h]

/-- Witness for C3 at a concrete missing-value feature and a concrete
present-value feature. -/
theorem style_function_correct_witness :
    style_function colormap_fixture "P12_001N" feature_missing
      = { fillColor := Color.grey, color := Color.black,
          weight := 1/2, fillOpacity := 7/10 }
    ∧ style_function colormap_fixture "P12_001N" feature_present
      = { fillColor := colormap_color colormap_fixture 5, color := Color.black,
          weight := 1/2, fillOpacity := 7/10 } :=
  ⟨(style_function_correct colormap_fixture "P12_001N" feature_missing).1 (by decide),
   (style_function_correct colormap_fixture "P12_001N" feature_present).2 5 (by decide)⟩

/-- C8: two `generate_map` calls on identical region data, metric code
and label map produce identical per-feature styles and an identical
legend domain — the pipeline is a pure function of its inputs. -/
theorem generate_map_deterministic (gdf1 gdf2 : Dataset) (v1 v2 : String)
    (l1 l2 : List (String × String)) (hg : gdf1 = gdf2) (hv : v1 = v2) (hl : l1 = l2) :
    (generate_map gdf1 v1 l1).layers.map GeoJsonLayer.style
      = (generate_map gdf2 v2 l2).layers.map GeoJsonLayer.style
    ∧ (generate_map gdf1 v1 l1).colormap.minVal
      = (generate_map gdf2 v2 l2).colormap.minVal
    ∧ (generate_map gdf1 v1 l1).colormap.maxVal
      = (generate_map gdf2 v2 l2).colormap.maxVal := by
  subst hg
  subst hv
  subst hl
  exact ⟨rfl, rfl, rfl⟩

/-- Witness for C8 at a concrete dataset. -/
theorem generate_map_deterministic_witness :
    (generate_map gdf_mixed "P12_001N" []).layers.map GeoJsonLayer.style
      = (generate_map gdf_mixed "P12_001N" []).layers.map GeoJsonLayer.style
    ∧ (generate_map gdf_mixed "P12_001N" []).colormap.minVal
      = (generate_map gdf_mixed "P12_001N" []).colormap.minVal
    ∧ (generate_map gdf_mixed "P12_001N" []).colormap.maxVal
      = (generate_map gdf_mixed "P12_001N" []).colormap.maxVal :=
  generate_map_deterministic gdf_mixed gdf_mixed "P12_001N" "P12_001N" [] [] rfl rfl rfl

/-- C1: the layer list of `generate_map` is exactly one layer per
input row with a present geometry, in input row order; rows with a
null geometry are skipped silently, so the layer count equals the
count of non-null-geometry rows. -/
theorem generate_map_features (gdf : Dataset) (var : String)
    (variable_labels : List (String × String)) :
    (generate_map gdf var variable_labels).layers
      = (gdf.rows.filter (fun r => r.geometry.isSome)).map
          (fun r => mkLayer (create_colormap gdf var variable_labels) var r
            (r.geometry.getD (Geometry.mk "")))
    ∧ (generate_map gdf var variable_labels).layers.length
      = gdf.rows.countP (fun r => r.geometry.isSome) := by
  have h1 : (generate_map gdf var variable_labels).layers
      = (gdf.rows.filter (fun r => r.geometry.isSome)).map
          (fun r => mkLayer (create_colormap gdf var variable_labels) var r
            (r.geometry.getD (Geometry.mk ""))) :=
    filterMap_geom
      (fun r g => mkLayer (create_colormap gdf var variable_labels) var r g)
      (Geometry.mk "") gdf.rows
  refine ⟨h1, ?_⟩
  rw [h1, List.length_map, ← List.countP_eq_length_filter]

/-- C9: the assembly loop threads the row list through unchanged —
`generate_map` never mutates its input rows — and every layer's
feature properties, tooltip and popup are derived from a row of the
input. -/
theorem generate_map_preserves_rows (gdf : Dataset) (var : String)
    (variable_labels : List (String × String)) :
    (assemble_rows (create_colormap gdf var variable_labels) var gdf.rows).2 = gdf.rows
    ∧ (assemble_rows (create_colormap gdf var variable_labels) var gdf.rows).1
        = (generate_map gdf var variable_labels).layers
    ∧ ∀ lay ∈ (generate_map gdf var variable_labels).layers,
        ∃ r ∈ gdf.rows,
          lay.feature.name = r.name
          ∧ lay.feature.metrics = r.metrics
          ∧ r.geometry = some (Geometry.mk lay.feature.geometry)
          ∧ lay.tooltip = r.name
          ∧ lay.popup.html = create_html_content r := by
  refine ⟨assemble_rows_snd _ _ _, assemble_rows_fst _ _ _, ?_⟩
  intro lay hmem
  have hmem' : lay ∈ gdf.rows.filterMap
      (fun row => row.geometry.map
        (fun g => mkLayer (create_colormap gdf var variable_labels) var row g)) := hmem
  rw [List.mem_filterMap] at hmem'
  obtain ⟨r, hr, hf⟩ := hmem'
  cases hg : r.geometry with
  | none =>
    rw [hg] at hf
    exact absurd hf (by simp)
  | some g =>
    rw [hg] at hf
    have hlay : mkLayer (create_colormap gdf var variable_labels) var r g = lay :=
      Option.some.inj hf
    subst hlay
    refine ⟨r, hr, rfl, rfl, ?_, rfl, rfl⟩
    rw [hg]
    rfl

/-- Witness for C9: the first layer built over the mixed fixture is
derived from a row of the input. -/
theorem generate_map_preserves_rows_witness :
    ∃ r ∈ gdf_mixed.rows,
      layer_ten.feature.name = r.name
      ∧ layer_ten.feature.metrics = r.metrics
      ∧ r.geometry = some (Geometry.mk layer_ten.feature.geometry)
      ∧ layer_ten.tooltip = r.name
      ∧ layer_ten.popup.html = create_html_content r :=
  (generate_map_preserves_rows gdf_mixed "P12_001N" []).2.2 layer_ten (List.Mem.head _)

theorem create_html_content_degraded (row : Region)
    (h : row.femaleBarChart = none ∨ row.maleBarChart = none) :
    create_html_content row = panel_head ++ row.name ++ panel_no_data_tail := by
  unfold create_html_content
  cases hf : row.femaleBarChart with
  | none => cases hm : row.maleBarChart <;> rfl
  | some f =>
    cases hm : row.maleBarChart with
    | none => rfl
    | some m =>
      rw [hf, hm] at h
      rcases h with h | h <;> exact Option.noConfusion h

theorem create_html_content_full (row : Region) (f m : Payload)
    (hf : row.femaleBarChart = some f) (hm : row.maleBarChart = some m) :
    create_html_content row
      = panel_head ++ row.name ++ panel_mid1 ++ payload_text f ++ panel_mid2
          ++ payload_text m ++ panel_tail := by
  unfold create_html_content
  rw [hf, hm]

/-- C4: when either bar-chart image is absent the panel contains the
region name and the no-data message; when both are present it contains
the region name, both labeled image blocks, and the fixed display
size. -/
theorem create_html_content_panels (row : Region) :
    (row.femaleBarChart = none ∨ row.maleBarChart = none →
      contains_str (create_html_content row) row.name
      ∧ contains_str (create_html_content row) "No data available for bar charts.")
    ∧ (∀ f m : Payload, row.femaleBarChart = some f → row.maleBarChart = some m →
        contains_str (create_html_content row) row.name
        ∧ contains_str (create_html_content row) "<h5>Female Age Data</h5>"
        ∧ contains_str (create_html_content row) "<h5>Male Age Data</h5>"
        ∧ contains_str (create_html_content row) "width: 280px; height: 150px;") := by
  constructor
  · intro h
    have hd := create_html_content_degraded row h
    have hsplit : panel_no_data_tail.data
        = ("</h4>\n                <p>").data
          ++ (("No data available for bar charts.").data
            ++ ("</p>\n            </div>\n            ").data) := by decide
    constructor
    · exact ⟨panel_head.data, panel_no_data_tail.data, by rw [hd]; simp [string_data_append]⟩
    · refine ⟨panel_head.data ++ row.name.data ++ ("</h4>\n                <p>").data,
        ("</p>\n            </div>\n            ").data, ?_⟩
      rw [hd]
      simp [string_data_append, hsplit]
  · intro f m hf hm
    have hfull := create_html_content_full row f m hf hm
    have hs1 : panel_mid1.data
        = ("</h4>\n                <div style=\"display: flex; flex-direction: column; gap: 10px;\">\n                    <div>\n                        ").data
          ++ (("<h5>Female Age Data</h5>").data
            ++ ("\n                        <img src=\"data:image/png;base64,").data) := by
      decide
    have hs2 : panel_mid2.data
        = ("\" style=\"width: 280px; height: 150px;\">\n                    </div>\n                    <div>\n                        ").data
          ++ (("<h5>Male Age Data</h5>").data
            ++ ("\n                        <img src=\"data:image/png;base64,").data) := by
      decide
    have hs3 : panel_mid2.data
        = ("\" style=\"").data
          ++ (("width: 280px; height: 150px;").data
            ++ ("\">\n                    </div>\n                    <div>\n                        <h5>Male Age Data</h5>\n                        <img src=\"data:image/png;base64,").data) := by
      decide
    refine ⟨⟨panel_head.data,
        panel_mid1.data ++ (payload_text f).data ++ panel_mid2.data
          ++ (payload_text m).data ++ panel_tail.data,
        by rw [hfull]; simp [string_data_append]⟩, ?_, ?_, ?_⟩
    · refine ⟨panel_head.data ++ row.name.data
          ++ ("</h4>\n                <div style=\"display: flex; flex-direction: column; gap: 10px;\">\n                    <div>\n                        ").data,
        ("\n                        <img src=\"data:image/png;base64,").data
          ++ (payload_text f).data ++ panel_mid2.data
          ++ (payload_text m).data ++ panel_tail.data, ?_⟩
      rw [hfull]
      simp [string_data_append, hs1]
    · refine ⟨panel_head.data ++ row.name.data ++ panel_mid1.data
          ++ (payload_text f).data
          ++ ("\" style=\"width: 280px; height: 150px;\">\n                    </div>\n                    <div>\n                        ").data,
        ("\n                        <img src=\"data:image/png;base64,").data
          ++ (payload_text m).data ++ panel_tail.data, ?_⟩
      rw [hfull]
      simp [string_data_append, hs2]
    · refine ⟨panel_head.data ++ row.name.data ++ panel_mid1.data
          ++ (payload_text f).data ++ ("\" style=\"").data,
        ("\">\n                    </div>\n                    <div>\n                        <h5>Male Age Data</h5>\n                        <img src=\"data:image/png;base64,").data
          ++ (payload_text m).data ++ panel_tail.data, ?_⟩
      rw [hfull]
      simp [string_data_append, hs3]

/-- Witness for C4: the two one-image-missing fixtures yield the
no-data panel content, the both-images fixture yields both labeled
blocks and the fixed size. -/
theorem create_html_content_panels_witness :
    (contains_str (create_html_content region_missing_val) region_missing_val.name
      ∧ contains_str (create_html_content region_missing_val)
          "No data available for bar charts.")
    ∧ (contains_str (create_html_content region_thirty) region_thirty.name
      ∧ contains_str (create_html_content region_thirty)
          "No data available for bar charts.")
    ∧ (contains_str (create_html_content region_ten) region_ten.name
      ∧ contains_str (create_html_content region_ten) "<h5>Female Age Data</h5>"
      ∧ contains_str (create_html_content region_ten) "<h5>Male Age Data</h5>"
      ∧ contains_str (create_html_content region_ten) "width: 280px; height: 150px;") :=
  ⟨(create_html_content_panels region_missing_val).1 (Or.inl rfl),
   (create_html_content_panels region_thirty).1 (Or.inr rfl),
   (create_html_content_panels region_ten).2 (Payload.base64 "IMGF")
     (Payload.base64 "IMGM") rfl rfl⟩

/-- C10: the degraded panel is produced exactly when at least one image
cell is Python `None`; any non-`None` payload — an empty string or a
pandas `NaN` placeholder included — is embedded verbatim (as rendered
by string interpolation) in the two-chart panel. -/
theorem create_html_content_strict_null_test (row : Region) :
    ((row.femaleBarChart = none ∨ row.maleBarChart = none)
      ↔ create_html_content row = panel_head ++ row.name ++ panel_no_data_tail)
    ∧ (∀ f m : Payload, row.femaleBarChart = some f → row.maleBarChart = some m →
        create_html_content row
          = panel_head ++ row.name ++ panel_mid1 ++ payload_text f ++ panel_mid2
              ++ payload_text m ++ panel_tail) := by
  constructor
  · constructor
    · exact create_html_content_degraded row
    · intro heq
      by_contra hn
      push_neg at hn
      obtain ⟨hf', hm'⟩ := hn
      cases hf : row.femaleBarChart with
      | none => exact hf' hf
      | some f =>
        cases hm : row.maleBarChart with
        | none => exact hm' hm
        | some m =>
          have hfull := create_html_content_full row f m hf hm
          rw [hfull] at heq
          have hlen := congrArg (fun s : String => s.data.length) heq
          simp [string_data_append, List.length_append] at hlen
          have hlt : panel_no_data_tail.length < panel_mid1.length := by decide
          omega
  · exact fun f m hf hm => create_html_content_full row f m hf hm

/-- Witness for C10: a `None` male cell yields the no-data panel, and
an empty-string female payload together with a `NaN` male payload are
both embedded verbatim in the two-chart panel. -/
theorem create_html_content_strict_null_test_witness :
    create_html_content region_thirty
      = panel_head ++ region_thirty.name ++ panel_no_data_tail
    ∧ create_html_content region_odd_payloads
      = panel_head ++ region_odd_payloads.name ++ panel_mid1 ++ "" ++ panel_mid2
          ++ "nan" ++ panel_tail :=
  ⟨((create_html_content_strict_null_test region_thirty).1).mp (Or.inr rfl),
   (create_html_content_strict_null_test region_odd_payloads).2
     (Payload.base64 "") Payload.nanCell rfl rfl⟩

end DemoGraph
